import Mathlib

/-!
Verification of the MULTIPLAYER-WORLD host-authoritative simulation.

The definitions below are a shallow embedding of the JavaScript sources:
* `GameHost` in `src/client.js` (constructor config at lines 2089-2099,
  `addPlayer` at 2171-2191, the input handler at 2124-2131, `removePlayer`
  at 2247-2270, and the per-tick integrator `update` at 2277-2402);
* the relay-server room registry in `src/unnamed/part_000` (lines 21-57);
* the P2P `NetworkManager.cleanupConnection` in `src/unnamed/part_005`
  (lines 122-131);
* the soft-correction `GameClient` reconciliation in `src/unnamed/part_001`
  (lines 322-338);
* the remote-entity rotation smoothing in `src/unnamed/part_002`
  (lines 529-538).

JavaScript numbers are modelled by an arbitrary linear ordered field, so the
same definitions can be read at `ℚ` (for concrete evaluation) and at `ℝ`
(for the trigonometric direction computation).  The transcendental block of
the integrator (normalize, rotate by camera yaw, `Math.atan2`) is factored
out as `movementDir`/`movementAngle` over `ℝ`; the rest of the tick,
`stepPlayer`, is parametric in the resulting direction.
-/

namespace MW

/-- A 3-component vector, as the `{x, y, z}` object literals of the source. -/
@[ext]
structure Vec3 (α : Type) where
  x : α
  y : α
  z : α
deriving Repr, DecidableEq

/-- A 2-component vector, as the `{x, z}` dash-direction object. -/
structure Vec2 (α : Type) where
  x : α
  z : α
deriving Repr, DecidableEq

/-- The host game configuration object (`src/client.js` lines 2089-2099). -/
structure Config (α : Type) where
  moveSpeed : α
  jumpPower : α
  gravity : α
  groundLevel : α
  worldSize : α
  dashSpeed : α
  dashDuration : α
  dashCooldown : α
  maxDashStacks : ℤ
deriving Repr, DecidableEq

/-- The per-player entity state created by `GameHost.addPlayer`
(`src/client.js` lines 2174-2189). -/
structure Player (α : Type) where
  id : String
  name : String
  position : Vec3 α
  velocity : Vec3 α
  rotation : α
  color : ℕ
  isGrounded : Bool
  jumpCount : ℤ
  isDashing : Bool
  dashTimer : α
  dashCooldownTimer : α
  dashStacks : ℤ
  dashDirection : Vec2 α
deriving Repr, DecidableEq

/-- The stored per-participant input record created by `GameHost.addPlayer`
(`src/client.js` lines 2192-2201): the six key flags, the host-maintained
`jumpPressed` edge-detection latch, and the camera yaw. -/
structure InputRec (α : Type) where
  forward : Bool
  backward : Bool
  left : Bool
  right : Bool
  jump : Bool
  jumpPressed : Bool
  dash : Bool
  cameraYaw : α
deriving Repr, DecidableEq

/-- The payload of an `input` network message: `{...this.keys, cameraYaw}`
(`src/client.js` lines 379-384 and 1930-1934), where `this.keys` holds
exactly `forward/backward/left/right/jump/dash` (lines 525-532).  It carries
no `jumpPressed` field. -/
structure InputMsg (α : Type) where
  forward : Bool
  backward : Bool
  left : Bool
  right : Bool
  jump : Bool
  dash : Bool
  cameraYaw : α
deriving Repr, DecidableEq

/-- `Object.assign(input, data.input)` in the host's `input` message handler
(`src/client.js` lines 2126-2130): every field carried by the message is
copied over the stored record; fields the message does not carry (only
`jumpPressed`) keep their stored value. -/
def applyInputMessage {α : Type} (stored : InputRec α) (msg : InputMsg α) : InputRec α :=
  { forward := msg.forward
    backward := msg.backward
    left := msg.left
    right := msg.right
    jump := msg.jump
    jumpPressed := stored.jumpPressed
    dash := msg.dash
    cameraYaw := msg.cameraYaw }

variable {α : Type} [LinearOrderedField α]

/-- The host configuration values (`src/client.js` lines 2089-2099). -/
def hostConfig (α : Type) [LinearOrderedField α] : Config α :=
  { moveSpeed := 8
    jumpPower := 8
    gravity := 20
    groundLevel := 1/2
    worldSize := 50
    dashSpeed := 25
    dashDuration := 1/4
    dashCooldown := 2
    maxDashStacks := 3 }

/-- The freshly spawned player of `GameHost.addPlayer`
(`src/client.js` lines 2174-2189). -/
def spawnPlayer (α : Type) [LinearOrderedField α] (pid nm : String) (col : ℕ) : Player α :=
  { id := pid
    name := nm
    position := ⟨0, (hostConfig α).groundLevel, 0⟩
    velocity := ⟨0, 0, 0⟩
    rotation := 0
    color := col
    isGrounded := true
    jumpCount := 0
    isDashing := false
    dashTimer := 0
    dashCooldownTimer := 0
    dashStacks := 3
    dashDirection := ⟨0, 0⟩ }

/-- The all-false initial input record of `GameHost.addPlayer`
(`src/client.js` lines 2192-2201). -/
def zeroInput (α : Type) [LinearOrderedField α] : InputRec α :=
  { forward := false
    backward := false
    left := false
    right := false
    jump := false
    jumpPressed := false
    dash := false
    cameraYaw := 0 }

/-- Dash cooldown and stack regeneration (`src/client.js` lines 2290-2305):
while cooling down the timer decreases by `dt`; on reaching zero it is
zeroed, one stack is gained if below the maximum, and the cooldown restarts
only if the new count is still below the maximum. -/
def stepDashCooldown (cfg : Config α) (dt : α) (p : Player α) : Player α :=
  if 0 < p.dashCooldownTimer then
    if p.dashCooldownTimer - dt ≤ 0 then
      if p.dashStacks < cfg.maxDashStacks then
        { p with dashStacks := p.dashStacks + 1
                 dashCooldownTimer :=
                   if p.dashStacks + 1 < cfg.maxDashStacks then cfg.dashCooldown else 0 }
      else { p with dashCooldownTimer := 0 }
    else { p with dashCooldownTimer := p.dashCooldownTimer - dt }
  else p

/-- Active dash duration countdown (`src/client.js` lines 2307-2312). -/
def stepDashTimer (dt : α) (p : Player α) : Player α :=
  if p.isDashing then
    if p.dashTimer - dt ≤ 0 then
      { p with dashTimer := p.dashTimer - dt, isDashing := false }
    else { p with dashTimer := p.dashTimer - dt }
  else p

/-- The dash trigger condition (`src/client.js` line 2336): dash requested,
not already dashing, at least one stack, and a nonzero movement direction. -/
def dashTriggered (dir : α × α) (inp : InputRec α) (p : Player α) : Bool :=
  inp.dash && !p.isDashing && decide (0 < p.dashStacks) &&
    (decide (dir.1 ≠ 0) || decide (dir.2 ≠ 0))

/-- Dash trigger (`src/client.js` lines 2336-2347): consume one stack, set
the dash state, latch the direction, and start the cooldown if it is not
already running. -/
def stepDashTrigger (cfg : Config α) (dir : α × α) (inp : InputRec α) (p : Player α) :
    Player α :=
  if dashTriggered dir inp p then
    { p with isDashing := true
             dashTimer := cfg.dashDuration
             dashStacks := p.dashStacks - 1
             dashDirection := ⟨dir.1, dir.2⟩
             dashCooldownTimer :=
               if p.dashCooldownTimer ≤ 0 then cfg.dashCooldown else p.dashCooldownTimer }
  else p

/-- Horizontal velocity (`src/client.js` lines 2349-2356): dash-speed-scaled
latched direction while dashing, else move-speed-scaled input direction. -/
def stepMoveVelocity (cfg : Config α) (dir : α × α) (p : Player α) : Player α :=
  if p.isDashing then
    { p with velocity := { p.velocity with
        x := p.dashDirection.x * cfg.dashSpeed
        z := p.dashDirection.z * cfg.dashSpeed } }
  else
    { p with velocity := { p.velocity with
        x := dir.1 * cfg.moveSpeed
        z := dir.2 * cfg.moveSpeed } }

/-- Edge-triggered double jump (`src/client.js` lines 2358-2372).  Returns
the updated player together with the updated input record, since the
`jumpPressed` latch lives in the input record. -/
def stepJump (cfg : Config α) (p : Player α) (inp : InputRec α) :
    Player α × InputRec α :=
  if inp.jump && !inp.jumpPressed then
    if p.isGrounded then
      ({ p with velocity := { p.velocity with y := cfg.jumpPower }
                isGrounded := false
                jumpCount := 1 },
       { inp with jumpPressed := true })
    else if p.jumpCount = 1 then
      ({ p with velocity := { p.velocity with y := cfg.jumpPower }
                jumpCount := 2 },
       { inp with jumpPressed := true })
    else (p, inp)
  else if !inp.jump then (p, { inp with jumpPressed := false })
  else (p, inp)

/-- Gravity while airborne (`src/client.js` lines 2374-2377). -/
def stepGravity (cfg : Config α) (dt : α) (p : Player α) : Player α :=
  if p.isGrounded then p
  else { p with velocity := { p.velocity with y := p.velocity.y - cfg.gravity * dt } }

/-- Position integration by `velocity × dt` (`src/client.js` lines 2379-2382). -/
def integrate (dt : α) (p : Player α) : Player α :=
  { p with position :=
      ⟨p.position.x + p.velocity.x * dt,
       p.position.y + p.velocity.y * dt,
       p.position.z + p.velocity.z * dt⟩ }

/-- Ground collision (`src/client.js` lines 2384-2390): if the integrated
`y` is at or below ground level, clamp it, zero the vertical velocity, set
grounded, and reset the jump chain. -/
def stepGroundCollide (cfg : Config α) (p : Player α) : Player α :=
  if p.position.y ≤ cfg.groundLevel then
    { p with position := { p.position with y := cfg.groundLevel }
             velocity := { p.velocity with y := 0 }
             isGrounded := true
             jumpCount := 0 }
  else p

/-- World-boundary clamp of `x` and `z` into `±worldSize/2`
(`src/client.js` lines 2392-2395). -/
def clampWorld (cfg : Config α) (p : Player α) : Player α :=
  let half := cfg.worldSize / 2
  { p with position := { p.position with
      x := max (-half) (min half p.position.x)
      z := max (-half) (min half p.position.z) } }

/-- Facing update (`src/client.js` lines 2397-2400): only when the rotated
movement direction is nonzero does the rotation change, to the angle
`Math.atan2(rotatedX, rotatedZ)` passed in as `dirAngle`. -/
def stepFacing (dir : α × α) (dirAngle : α) (p : Player α) : Player α :=
  if dir.1 ≠ 0 ∨ dir.2 ≠ 0 then { p with rotation := dirAngle } else p

/-- The ability phases of one tick (`src/client.js` lines 2290-2372):
dash cooldown, dash timer, dash trigger, horizontal velocity, jump. -/
def stepAbility (cfg : Config α) (dt : α) (dir : α × α) (p : Player α)
    (inp : InputRec α) : Player α × InputRec α :=
  stepJump cfg
    (stepMoveVelocity cfg dir (stepDashTrigger cfg dir inp (stepDashTimer dt
      (stepDashCooldown cfg dt p)))) inp

/-- The kinematic phases of one tick (`src/client.js` lines 2374-2382):
gravity, then position integration. -/
def stepKinematics (cfg : Config α) (dt : α) (p : Player α) : Player α :=
  integrate dt (stepGravity cfg dt p)

/-- The collision-resolution phases of one tick
(`src/client.js` lines 2384-2395): ground collision, then world clamp. -/
def stepResolve (cfg : Config α) (p : Player α) : Player α :=
  clampWorld cfg (stepGroundCollide cfg p)

/-- One full integrator tick for one player (`GameHost.update`,
`src/client.js` lines 2285-2401), parametric in the rotated movement
direction `dir` and its facing angle `dirAngle` (whose trigonometric
computation, lines 2314-2333, is `movementDir`/`movementAngle` below). -/
def stepPlayer (cfg : Config α) (dt : α) (dir : α × α) (dirAngle : α)
    (p : Player α) (inp : InputRec α) : Player α × InputRec α :=
  (stepFacing dir dirAngle
    (stepResolve cfg (stepKinematics cfg dt (stepAbility cfg dt dir p inp).1)),
   (stepAbility cfg dt dir p inp).2)

/-- The raw movement vector `(moveX, moveZ)` from the four directional flags
(`src/client.js` lines 2315-2321). -/
def rawMove (inp : InputRec α) : α × α :=
  ((if inp.left then (-1 : α) else 0) + (if inp.right then 1 else 0),
   (if inp.forward then (-1 : α) else 0) + (if inp.backward then 1 else 0))

/-- The length of the raw movement vector
(`src/client.js` line 2324: `Math.sqrt(moveX*moveX + moveZ*moveZ)`). -/
noncomputable def rawLen (inp : InputRec ℝ) : ℝ :=
  Real.sqrt ((rawMove inp).1 * (rawMove inp).1 + (rawMove inp).2 * (rawMove inp).2)

/-- The normalized movement vector (`src/client.js` lines 2324-2328): the
raw vector divided by its length when the length is positive. -/
noncomputable def normedMove (inp : InputRec ℝ) : ℝ × ℝ :=
  if 0 < rawLen inp
  then ((rawMove inp).1 / rawLen inp, (rawMove inp).2 / rawLen inp)
  else rawMove inp

/-- The rotated movement direction `(rotatedX, rotatedZ)` of
`src/client.js` lines 2330-2333: the normalized vector rotated by
`-cameraYaw`. -/
noncomputable def movementDir (inp : InputRec ℝ) : ℝ × ℝ :=
  ((normedMove inp).1 * Real.cos (-inp.cameraYaw)
     - (normedMove inp).2 * Real.sin (-inp.cameraYaw),
   (normedMove inp).1 * Real.sin (-inp.cameraYaw)
     + (normedMove inp).2 * Real.cos (-inp.cameraYaw))

/-- The facing angle `Math.atan2(rotatedX, rotatedZ)` of
`src/client.js` line 2399, as the argument of the complex number
`rotatedZ + rotatedX⋅i`. -/
noncomputable def movementAngle (inp : InputRec ℝ) : ℝ :=
  Complex.arg ⟨(movementDir inp).2, (movementDir inp).1⟩

/-- One real-valued host tick for one player: `stepPlayer` driven by the
trigonometric direction computation of the source. -/
noncomputable def hostTick (cfg : Config ℝ) (dt : ℝ) (p : Player ℝ)
    (inp : InputRec ℝ) : Player ℝ × InputRec ℝ :=
  stepPlayer cfg dt (movementDir inp) (movementAngle inp) p inp

/-- One zero-input host tick on a player/input pair: the rotated direction
of the all-false input record is `(0, 0)` (`movementDir_zeroYaw` below), and
the facing angle is irrelevant since a zero direction never updates facing. -/
def tickZero (cfg : Config α) (dt : α) (s : Player α × InputRec α) :
    Player α × InputRec α :=
  stepPlayer cfg dt (0, 0) 0 s.1 s.2

/-- The first wrap branch of `src/unnamed/part_002` line 535:
`if (diff > Math.PI) diff -= 2 * Math.PI`. -/
noncomputable def wrapHigh (diff : ℝ) : ℝ :=
  if diff > Real.pi then diff - 2 * Real.pi else diff

/-- The second wrap branch of `src/unnamed/part_002` line 536:
`if (diff < -Math.PI) diff += 2 * Math.PI`. -/
noncomputable def wrapLow (d1 : ℝ) : ℝ :=
  if d1 < -Real.pi then d1 + 2 * Real.pi else d1

/-- The remote-entity rotation-smoothing angular difference of
`src/unnamed/part_002` lines 533-537: `diff = target - current`, reduced by
`2π` when above `π`, then raised by `2π` when below `-π`. -/
noncomputable def wrapAngle (current target : ℝ) : ℝ :=
  wrapLow (wrapHigh (target - current))

/-- A relay-server room (`src/unnamed/part_000` lines 21 and 29-32):
the host's socket id and the membership set. -/
structure Room where
  hostId : String
  players : Finset String
deriving DecidableEq

/-- The relay server's room registry: `rooms` is a `Map` from room id to
room (`src/unnamed/part_000` line 21), modelled as a partial map. -/
def RoomMap : Type := String → Option Room

/-- The result reported through the `joinRoom` acknowledgment callback
(`src/unnamed/part_000` lines 44-56): either `{success: false, error:
'Room not found'}` or `{success: true}`.  These are the only two outcomes
the handler can produce. -/
inductive JoinResult where
  | success : JoinResult
  | roomNotFound : JoinResult
deriving DecidableEq, Repr

/-- The `joinRoom` handler (`src/unnamed/part_000` lines 39-57): if the code
is unknown, fail with room-not-found; otherwise add the socket to the
member set and acknowledge success. -/
def joinRoom (rooms : RoomMap) (roomId socketId : String) :
    RoomMap × JoinResult :=
  match rooms roomId with
  | none => (rooms, JoinResult.roomNotFound)
  | some room =>
      (fun k => if k = roomId
        then some { room with players := insert socketId room.players }
        else rooms k,
       JoinResult.success)

/-- The connection-tracking state of `NetworkManager`
(`src/unnamed/part_005` lines 10-16): the open connections and the per-peer
heartbeat timestamps, keyed by peer id. -/
structure NetState where
  connections : Finset String
  lastHeartbeat : Finset String
deriving DecidableEq

/-- `NetworkManager.cleanupConnection` (`src/unnamed/part_005` lines
122-131): remember whether the peer was connected, delete it from both
maps, and fire the `onDisconnect` handler only if it had been connected.
The returned Boolean is whether the handler fired. -/
def cleanupConnection (s : NetState) (peerId : String) : NetState × Bool :=
  (⟨s.connections.erase peerId, s.lastHeartbeat.erase peerId⟩,
   peerId ∈ s.connections)

/-- The host-side player bookkeeping touched by `GameHost.removePlayer`:
the `players` and `inputs` maps, keyed by peer id. -/
structure HostState where
  players : Finset String
  inputs : Finset String
deriving DecidableEq

/-- A broadcast session-protocol message (only the variant the disconnect
path emits is needed). -/
inductive NetMsg where
  | playerLeft : String → NetMsg
deriving DecidableEq

/-- `GameHost.removePlayer` (`src/client.js` lines 2247-2270): delete the
peer from both maps and broadcast one `playerLeft` message. -/
def removePlayer (h : HostState) (peerId : String) : HostState × List NetMsg :=
  (⟨h.players.erase peerId, h.inputs.erase peerId⟩, [NetMsg.playerLeft peerId])

/-- One delivery of a close/heartbeat-timeout event for `peerId`:
`cleanupConnection` runs, and the host's `onDisconnect` handler
(`src/client.js` lines 2118-2121), hence `removePlayer`, runs exactly when
`cleanupConnection` fires it.  Returns the new transport state, the new
host state, and the broadcast messages. -/
def deliverClose (s : NetState) (h : HostState) (peerId : String) :
    NetState × HostState × List NetMsg :=
  let c := cleanupConnection s peerId
  if c.2 then
    let r := removePlayer h peerId
    (c.1, r.1, r.2)
  else (c.1, h, [])

/-- The soft-correction variant's locally predicted player state
(`src/unnamed/part_001` lines 301-306). -/
structure LocalPlayer (α : Type) where
  position : Vec3 α
  velocity : Vec3 α
  rotation : α
  isGrounded : Bool
deriving DecidableEq

/-- The soft-correction reconciliation of the `gameState` handler
(`src/unnamed/part_001` lines 326-334): each position coordinate moves
toward the server value by the fixed `correctionFactor = 0.1`; nothing else
is touched. -/
def applyGameState (lp : LocalPlayer α) (serverPos : Vec3 α) : LocalPlayer α :=
  let correctionFactor : α := 1/10
  { lp with position :=
      ⟨lp.position.x + (serverPos.x - lp.position.x) * correctionFactor,
       lp.position.y + (serverPos.y - lp.position.y) * correctionFactor,
       lp.position.z + (serverPos.z - lp.position.z) * correctionFactor⟩ }

/-! ### Helper lemmas -/

/-- A blend of one tenth toward `b` stays between `a` and `b`. -/
lemma lerp_tenth_mem_Icc (a b : α) :
    a + (b - a) * (1/10) ∈ Set.Icc (min a b) (max a b) := by
  rcases le_total a b with h | h
  · rw [min_eq_left h, max_eq_right h]
    constructor <;> nlinarith
  · rw [min_eq_right h, max_eq_left h]
    constructor <;> nlinarith

/-- The facing update never moves the player. -/
lemma stepFacing_position (dir : α × α) (dirAngle : α) (p : Player α) :
    (stepFacing dir dirAngle p).position = p.position := by
  unfold stepFacing; split <;> rfl

/-- The world clamp does not change the vertical coordinate. -/
lemma clampWorld_position_y (cfg : Config α) (p : Player α) :
    (clampWorld cfg p).position.y = p.position.y := rfl

/-- Ground collision leaves the player at or above ground level. -/
lemma stepGroundCollide_ground (cfg : Config α) (p : Player α) :
    cfg.groundLevel ≤ (stepGroundCollide cfg p).position.y := by
  unfold stepGroundCollide; split
  · exact le_refl _
  · exact le_of_lt (lt_of_not_le (by assumption))

/-! ### C10: soft-correction reconciliation -/

/-- C10: applying a `gameState` snapshot to the locally owned entity sets
each position coordinate to the convex combination
`new = local + (server - local) × 0.1`; the corrected coordinate always
lies between the old local value and the server value (inclusive), and no
field of the local state other than `position` is modified. -/
theorem C10_soft_correction (lp : LocalPlayer α) (sp : Vec3 α) :
    (applyGameState lp sp).position.x
      = lp.position.x + (sp.x - lp.position.x) * (1/10) ∧
    (applyGameState lp sp).position.y
      = lp.position.y + (sp.y - lp.position.y) * (1/10) ∧
    (applyGameState lp sp).position.z
      = lp.position.z + (sp.z - lp.position.z) * (1/10) ∧
    (applyGameState lp sp).position.x
      ∈ Set.Icc (min lp.position.x sp.x) (max lp.position.x sp.x) ∧
    (applyGameState lp sp).position.y
      ∈ Set.Icc (min lp.position.y sp.y) (max lp.position.y sp.y) ∧
    (applyGameState lp sp).position.z
      ∈ Set.Icc (min lp.position.z sp.z) (max lp.position.z sp.z) ∧
    (applyGameState lp sp).velocity = lp.velocity ∧
    (applyGameState lp sp).rotation = lp.rotation ∧
    (applyGameState lp sp).isGrounded = lp.isGrounded :=
  ⟨rfl, rfl, rfl, lerp_tenth_mem_Icc _ _, lerp_tenth_mem_Icc _ _,
   lerp_tenth_mem_Icc _ _, rfl, rfl, rfl⟩

/-! ### C4: input message handling -/

/-- A concrete all-false input message. -/
def quietMsg : InputMsg ℚ :=
  { forward := false, backward := false, left := false, right := false,
    jump := false, dash := false, cameraYaw := 0 }

/-- C4 as stated is false: the stored record is NOT overwritten wholesale.
The handler is `Object.assign(input, data.input)` and the message carries
no `jumpPressed` field, so the host-maintained `jumpPressed` latch of the
previously stored record survives: two stored records differing only in
`jumpPressed` still differ after the same message is processed. -/
theorem C4_counterexample :
    applyInputMessage { zeroInput ℚ with jumpPressed := true } quietMsg
        ≠ applyInputMessage (zeroInput ℚ) quietMsg ∧
    (applyInputMessage { zeroInput ℚ with jumpPressed := true } quietMsg).jumpPressed
        = true := by
  refine ⟨?_, rfl⟩
  intro h
  exact absurd (congrArg InputRec.jumpPressed h) (by decide)

omit [LinearOrderedField α] in
/-- C4 amended: processing an input message overwrites every field the
message carries (the six key flags and the camera yaw) with the message's
value — latest-wins, no queueing — while the host-maintained `jumpPressed`
edge-detection latch keeps its previously stored value. -/
theorem C4_latest_wins (stored : InputRec α) (msg : InputMsg α) :
    (applyInputMessage stored msg).forward = msg.forward ∧
    (applyInputMessage stored msg).backward = msg.backward ∧
    (applyInputMessage stored msg).left = msg.left ∧
    (applyInputMessage stored msg).right = msg.right ∧
    (applyInputMessage stored msg).jump = msg.jump ∧
    (applyInputMessage stored msg).dash = msg.dash ∧
    (applyInputMessage stored msg).cameraYaw = msg.cameraYaw ∧
    (applyInputMessage stored msg).jumpPressed = stored.jumpPressed :=
  ⟨rfl, rfl, rfl, rfl, rfl, rfl, rfl, rfl⟩

/-! ### C5: joinRoom -/

/-- A registry holding one room with three members. -/
def rooms3 : RoomMap := fun k =>
  if k = "ROOM" then some ⟨"host", {"host", "a", "b"}⟩ else none

/-- C5 as stated is false: the `joinRoom` handler performs no capacity
check.  A registered room that already holds three members still accepts a
fourth join with success — so for any capacity bound of at most three the
promised `RoomFull` failure does not occur — and the handler's result type
has no `RoomFull` outcome at all: every acknowledgment is either success or
room-not-found. -/
theorem C5_counterexample :
    (({"host", "a", "b"} : Finset String)).card = 3 ∧
    (joinRoom rooms3 "ROOM" "z").2 = JoinResult.success ∧
    ∀ r : JoinResult, r = JoinResult.success ∨ r = JoinResult.roomNotFound := by
  refine ⟨by decide, rfl, ?_⟩
  intro r
  cases r
  · exact Or.inl rfl
  · exact Or.inr rfl

/-- C5 amended: `joinRoom` fails with room-not-found exactly when the code
is not registered; on a registered room it always succeeds (there is no
capacity bound and no `RoomFull` error), registers the member in that
room's member set, and leaves every other room unchanged. -/
theorem C5_join_characterization (rooms : RoomMap) (code sid : String) :
    ((joinRoom rooms code sid).2 = JoinResult.roomNotFound ↔ rooms code = none) ∧
    (∀ room : Room, rooms code = some room →
      (joinRoom rooms code sid).2 = JoinResult.success ∧
      (joinRoom rooms code sid).1 code
        = some { room with players := insert sid room.players } ∧
      ∀ k, k ≠ code → (joinRoom rooms code sid).1 k = rooms k) := by
  constructor
  · cases h : rooms code with
    | none => simp [joinRoom, h]
    | some room => simp [joinRoom, h]
  · intro room h
    refine ⟨by simp [joinRoom, h], by simp [joinRoom, h], ?_⟩
    intro k hk
    simp [joinRoom, h, hk]

/-- Witness for `C5_join_characterization` at the three-member registry. -/
theorem C5_join_witness :
    (joinRoom rooms3 "ROOM" "z").2 = JoinResult.success ∧
    (joinRoom rooms3 "ROOM" "z").1 "ROOM"
      = some ⟨"host", insert "z" {"host", "a", "b"}⟩ ∧
    (joinRoom rooms3 "ROOM" "z").1 "OTHER" = rooms3 "OTHER" := by
  have h := (C5_join_characterization rooms3 "ROOM" "z").2
    ⟨"host", {"host", "a", "b"}⟩ (by simp [rooms3])
  exact ⟨h.1, h.2.1, h.2.2 "OTHER" (by decide)⟩

/-! ### C6: idempotent disconnect cleanup -/

/-- C6: delivering the close/cleanup event twice for the same connected
peer removes the peer once, broadcasts exactly one `playerLeft` for it, and
the second delivery changes nothing and reports nothing. -/
theorem C6_cleanup_idempotent (s : NetState) (h : HostState) (pid : String)
    (hconn : pid ∈ s.connections) :
    (deliverClose s h pid).2.2 = [NetMsg.playerLeft pid] ∧
    pid ∉ (deliverClose s h pid).1.connections ∧
    (deliverClose s h pid).2.1.players = h.players.erase pid ∧
    deliverClose (deliverClose s h pid).1 (deliverClose s h pid).2.1 pid
      = ((deliverClose s h pid).1, (deliverClose s h pid).2.1, []) := by
  have h1 : deliverClose s h pid
      = (⟨s.connections.erase pid, s.lastHeartbeat.erase pid⟩,
         ⟨h.players.erase pid, h.inputs.erase pid⟩,
         [NetMsg.playerLeft pid]) := by
    simp [deliverClose, cleanupConnection, removePlayer, hconn]
  refine ⟨by rw [h1], ?_, by rw [h1], ?_⟩
  · rw [h1]
    exact Finset.not_mem_erase pid s.connections
  · rw [h1]
    simp [deliverClose, cleanupConnection, Finset.erase_idem]

/-- Witness for `C6_cleanup_idempotent` at a one-connection state. -/
theorem C6_cleanup_witness :
    deliverClose ⟨{"p"}, {"p"}⟩ ⟨{"h", "p"}, {"h", "p"}⟩ "p"
        = (⟨∅, ∅⟩, ⟨{"h"}, {"h"}⟩, [NetMsg.playerLeft "p"]) ∧
    (deliverClose ⟨∅, ∅⟩ ⟨{"h"}, {"h"}⟩ "p") = (⟨∅, ∅⟩, ⟨{"h"}, {"h"}⟩, []) := by
  have h := C6_cleanup_idempotent ⟨{"p"}, {"p"}⟩ ⟨{"h", "p"}, {"h", "p"}⟩ "p"
    (by decide)
  refine ⟨?_, ?_⟩
  · have h2 : deliverClose (⟨{"p"}, {"p"}⟩ : NetState) ⟨{"h", "p"}, {"h", "p"}⟩ "p"
        = (⟨({"p"} : Finset String).erase "p", ({"p"} : Finset String).erase "p"⟩,
           ⟨({"h", "p"} : Finset String).erase "p", ({"h", "p"} : Finset String).erase "p"⟩,
           [NetMsg.playerLeft "p"]) := by
      simp [deliverClose, cleanupConnection, removePlayer]
    rw [h2]
    decide
  · simp [deliverClose, cleanupConnection]

/-! ### C1: position bounds after each tick -/

/-- The world clamp brings a coordinate into `±worldSize/2`. -/
lemma clamp_abs_le (h x : α) (hh : 0 ≤ h) : |max (-h) (min h x)| ≤ h := by
  rw [abs_le]
  constructor
  · exact le_max_left _ _
  · exact max_le (by linarith) (min_le_left _ _)

/-- C1: after one integrator tick, for every configuration with a
nonnegative world size, every entity, every input record and every movement
direction, the position satisfies `position.y ≥ groundLevel`,
`|position.x| ≤ worldSize/2` and `|position.z| ≤ worldSize/2`. -/
theorem C1_position_bounds (cfg : Config α) (dt : α) (dir : α × α)
    (dirAngle : α) (p : Player α) (inp : InputRec α)
    (hw : 0 ≤ cfg.worldSize) :
    cfg.groundLevel ≤ (stepPlayer cfg dt dir dirAngle p inp).1.position.y ∧
    |(stepPlayer cfg dt dir dirAngle p inp).1.position.x| ≤ cfg.worldSize / 2 ∧
    |(stepPlayer cfg dt dir dirAngle p inp).1.position.z| ≤ cfg.worldSize / 2 := by
  have hpos : (stepPlayer cfg dt dir dirAngle p inp).1.position
      = (stepResolve cfg (stepKinematics cfg dt
          (stepAbility cfg dt dir p inp).1)).position := by
    unfold stepPlayer
    exact stepFacing_position _ _ _
  rw [hpos]
  set q := stepKinematics cfg dt (stepAbility cfg dt dir p inp).1 with hq
  have hhalf : (0 : α) ≤ cfg.worldSize / 2 := by linarith
  refine ⟨?_, ?_, ?_⟩
  · show cfg.groundLevel ≤ (clampWorld cfg (stepGroundCollide cfg q)).position.y
    rw [clampWorld_position_y]
    exact stepGroundCollide_ground cfg q
  · exact clamp_abs_le _ _ hhalf
  · exact clamp_abs_le _ _ hhalf

/-- Witness for `C1_position_bounds`: one host tick of `dt = 1/20` on the
freshly spawned player with zero input. -/
theorem C1_position_witness :
    (0 : ℚ) ≤ (hostConfig ℚ).worldSize ∧
    ((hostConfig ℚ).groundLevel ≤
      (stepPlayer (hostConfig ℚ) (1/20) (0, 0) 0
        (spawnPlayer ℚ "h" "Host" 0) (zeroInput ℚ)).1.position.y ∧
     |(stepPlayer (hostConfig ℚ) (1/20) (0, 0) 0
        (spawnPlayer ℚ "h" "Host" 0) (zeroInput ℚ)).1.position.x|
          ≤ (hostConfig ℚ).worldSize / 2 ∧
     |(stepPlayer (hostConfig ℚ) (1/20) (0, 0) 0
        (spawnPlayer ℚ "h" "Host" 0) (zeroInput ℚ)).1.position.z|
          ≤ (hostConfig ℚ).worldSize / 2) :=
  ⟨by norm_num [hostConfig],
   C1_position_bounds (hostConfig ℚ) (1/20) (0, 0) 0
     (spawnPlayer ℚ "h" "Host" 0) (zeroInput ℚ) (by norm_num [hostConfig])⟩

/-! ### C2: dash stacks -/

lemma stepDashTimer_dashStacks (dt : α) (p : Player α) :
    (stepDashTimer dt p).dashStacks = p.dashStacks := by
  unfold stepDashTimer; split_ifs <;> rfl

lemma stepMoveVelocity_dashStacks (cfg : Config α) (dir : α × α) (p : Player α) :
    (stepMoveVelocity cfg dir p).dashStacks = p.dashStacks := by
  unfold stepMoveVelocity; split_ifs <;> rfl

omit [LinearOrderedField α] in
lemma stepJump_dashStacks (cfg : Config α) (p : Player α) (inp : InputRec α) :
    (stepJump cfg p inp).1.dashStacks = p.dashStacks := by
  unfold stepJump; split_ifs <;> rfl

lemma stepGravity_dashStacks (cfg : Config α) (dt : α) (p : Player α) :
    (stepGravity cfg dt p).dashStacks = p.dashStacks := by
  unfold stepGravity; split_ifs <;> rfl

lemma integrate_dashStacks (dt : α) (p : Player α) :
    (integrate dt p).dashStacks = p.dashStacks := rfl

lemma stepGroundCollide_dashStacks (cfg : Config α) (p : Player α) :
    (stepGroundCollide cfg p).dashStacks = p.dashStacks := by
  unfold stepGroundCollide; split_ifs <;> rfl

lemma clampWorld_dashStacks (cfg : Config α) (p : Player α) :
    (clampWorld cfg p).dashStacks = p.dashStacks := rfl

lemma stepFacing_dashStacks (dir : α × α) (dirAngle : α) (p : Player α) :
    (stepFacing dir dirAngle p).dashStacks = p.dashStacks := by
  unfold stepFacing; split_ifs <;> rfl

/-- The full tick changes the stack count only in the cooldown and trigger
phases. -/
lemma stepPlayer_dashStacks (cfg : Config α) (dt : α) (dir : α × α)
    (dirAngle : α) (p : Player α) (inp : InputRec α) :
    (stepPlayer cfg dt dir dirAngle p inp).1.dashStacks
      = (stepDashTrigger cfg dir inp
          (stepDashTimer dt (stepDashCooldown cfg dt p))).dashStacks := by
  unfold stepPlayer stepAbility stepKinematics stepResolve
  rw [stepFacing_dashStacks, clampWorld_dashStacks, stepGroundCollide_dashStacks,
    integrate_dashStacks, stepGravity_dashStacks, stepJump_dashStacks,
    stepMoveVelocity_dashStacks]

/-- A successful dash trigger requires at least one stack. -/
lemma dashTriggered_pos (dir : α × α) (inp : InputRec α) (p : Player α)
    (h : dashTriggered dir inp p = true) : 0 < p.dashStacks := by
  simp only [dashTriggered, Bool.and_eq_true, decide_eq_true_eq] at h
  exact h.1.2

/-- The cooldown phase keeps the stack count within bounds. -/
lemma stepDashCooldown_stacks_bounds (cfg : Config α) (dt : α) (p : Player α)
    (h0 : 0 ≤ p.dashStacks) (h1 : p.dashStacks ≤ cfg.maxDashStacks) :
    0 ≤ (stepDashCooldown cfg dt p).dashStacks ∧
    (stepDashCooldown cfg dt p).dashStacks ≤ cfg.maxDashStacks := by
  unfold stepDashCooldown
  split_ifs <;> refine ⟨?_, ?_⟩ <;> dsimp only <;> omega

/-- The trigger phase keeps the stack count within bounds. -/
lemma stepDashTrigger_stacks_bounds (cfg : Config α) (dir : α × α)
    (inp : InputRec α) (p : Player α)
    (h0 : 0 ≤ p.dashStacks) (h1 : p.dashStacks ≤ cfg.maxDashStacks) :
    0 ≤ (stepDashTrigger cfg dir inp p).dashStacks ∧
    (stepDashTrigger cfg dir inp p).dashStacks ≤ cfg.maxDashStacks := by
  unfold stepDashTrigger
  by_cases h : dashTriggered dir inp p = true
  · rw [if_pos h]
    have hpos := dashTriggered_pos dir inp p h
    refine ⟨?_, ?_⟩ <;> dsimp only <;> omega
  · rw [if_neg h]
    exact ⟨h0, h1⟩

/-- Completing a cooldown cycle while below the maximum gains exactly one
stack and restarts the timer only if the new count is still below the
maximum. -/
lemma stepDashCooldown_complete (cfg : Config α) (dt : α) (p : Player α)
    (h1 : 0 < p.dashCooldownTimer) (h2 : p.dashCooldownTimer - dt ≤ 0)
    (h3 : p.dashStacks < cfg.maxDashStacks) :
    (stepDashCooldown cfg dt p).dashStacks = p.dashStacks + 1 ∧
    (stepDashCooldown cfg dt p).dashCooldownTimer
      = (if p.dashStacks + 1 < cfg.maxDashStacks then cfg.dashCooldown else 0) := by
  unfold stepDashCooldown
  rw [if_pos h1, if_pos h2, if_pos h3]
  exact ⟨rfl, rfl⟩

/-- C2: the stack count stays within `[0, maxDashStacks]` across any tick;
a successful dash trigger consumes exactly one stack; a completed cooldown
cycle below the maximum restores exactly one stack, restarting the cooldown
timer only if the count is still below the maximum (one stack at a time). -/
theorem C2_dash_stacks (cfg : Config α) (dt : α) (dir : α × α) (dirAngle : α)
    (p : Player α) (inp : InputRec α) :
    (0 ≤ p.dashStacks → p.dashStacks ≤ cfg.maxDashStacks →
      0 ≤ (stepPlayer cfg dt dir dirAngle p inp).1.dashStacks ∧
      (stepPlayer cfg dt dir dirAngle p inp).1.dashStacks ≤ cfg.maxDashStacks) ∧
    (dashTriggered dir inp p = true →
      (stepDashTrigger cfg dir inp p).dashStacks = p.dashStacks - 1) ∧
    (0 < p.dashCooldownTimer → p.dashCooldownTimer - dt ≤ 0 →
      p.dashStacks < cfg.maxDashStacks →
      (stepDashCooldown cfg dt p).dashStacks = p.dashStacks + 1 ∧
      (stepDashCooldown cfg dt p).dashCooldownTimer
        = (if p.dashStacks + 1 < cfg.maxDashStacks then cfg.dashCooldown else 0)) := by
  refine ⟨?_, ?_, ?_⟩
  · intro h0 h1
    rw [stepPlayer_dashStacks]
    have hc := stepDashCooldown_stacks_bounds cfg dt p h0 h1
    rw [← stepDashTimer_dashStacks dt (stepDashCooldown cfg dt p)] at hc
    exact stepDashTrigger_stacks_bounds cfg dir inp _ hc.1 hc.2
  · intro h
    unfold stepDashTrigger
    rw [if_pos h]
  · exact stepDashCooldown_complete cfg dt p

/-- Witness for `C2_dash_stacks`: the spawned player keeps its three stacks
in bounds through a zero-input tick; a dash trigger with one of its three
stacks leaves two; completing a cooldown at one stack of three restores one
and restarts the timer. -/
theorem C2_dash_witness :
    (0 ≤ (stepPlayer (hostConfig ℚ) (1/20) (0, 0) 0
        (spawnPlayer ℚ "h" "Host" 0) (zeroInput ℚ)).1.dashStacks ∧
     (stepPlayer (hostConfig ℚ) (1/20) (0, 0) 0
        (spawnPlayer ℚ "h" "Host" 0) (zeroInput ℚ)).1.dashStacks
          ≤ (hostConfig ℚ).maxDashStacks) ∧
    (stepDashTrigger (hostConfig ℚ) (1, 0) { zeroInput ℚ with dash := true }
        (spawnPlayer ℚ "h" "Host" 0)).dashStacks
      = (spawnPlayer ℚ "h" "Host" 0).dashStacks - 1 ∧
    (stepDashCooldown (hostConfig ℚ) (1/20)
        { spawnPlayer ℚ "h" "Host" 0 with
            dashCooldownTimer := 1/20, dashStacks := 1 }).dashStacks = 2 ∧
    (stepDashCooldown (hostConfig ℚ) (1/20)
        { spawnPlayer ℚ "h" "Host" 0 with
            dashCooldownTimer := 1/20, dashStacks := 1 }).dashCooldownTimer = 2 := by
  refine ⟨?_, ?_, ?_, ?_⟩
  · exact (C2_dash_stacks (hostConfig ℚ) (1/20) (0, 0) 0
      (spawnPlayer ℚ "h" "Host" 0) (zeroInput ℚ)).1 (by decide) (by decide)
  · exact (C2_dash_stacks (hostConfig ℚ) (1/20) ((1 : ℚ), (0 : ℚ)) 0
      (spawnPlayer ℚ "h" "Host" 0) { zeroInput ℚ with dash := true }).2.1 (by decide)
  · have h := (C2_dash_stacks (hostConfig ℚ) (1/20) (0, 0) 0
      { spawnPlayer ℚ "h" "Host" 0 with dashCooldownTimer := 1/20, dashStacks := 1 }
      (zeroInput ℚ)).2.2 (by norm_num [spawnPlayer]) (by norm_num [spawnPlayer])
      (by decide)
    exact h.1
  · have h := (C2_dash_stacks (hostConfig ℚ) (1/20) (0, 0) 0
      { spawnPlayer ℚ "h" "Host" 0 with dashCooldownTimer := 1/20, dashStacks := 1 }
      (zeroInput ℚ)).2.2 (by norm_num [spawnPlayer]) (by norm_num [spawnPlayer])
      (by decide)
    rw [h.2]
    decide

/-! ### C3: jump chain -/

lemma stepDashCooldown_jumpCount (cfg : Config α) (dt : α) (p : Player α) :
    (stepDashCooldown cfg dt p).jumpCount = p.jumpCount := by
  unfold stepDashCooldown; split_ifs <;> rfl

lemma stepDashTimer_jumpCount (dt : α) (p : Player α) :
    (stepDashTimer dt p).jumpCount = p.jumpCount := by
  unfold stepDashTimer; split_ifs <;> rfl

lemma stepDashTrigger_jumpCount (cfg : Config α) (dir : α × α)
    (inp : InputRec α) (p : Player α) :
    (stepDashTrigger cfg dir inp p).jumpCount = p.jumpCount := by
  unfold stepDashTrigger; split_ifs <;> rfl

lemma stepMoveVelocity_jumpCount (cfg : Config α) (dir : α × α) (p : Player α) :
    (stepMoveVelocity cfg dir p).jumpCount = p.jumpCount := by
  unfold stepMoveVelocity; split_ifs <;> rfl

/-- The phases before the jump phase leave the jump counter unchanged. -/
lemma preJump_jumpCount (cfg : Config α) (dt : α) (dir : α × α)
    (inp : InputRec α) (p : Player α) :
    (stepMoveVelocity cfg dir (stepDashTrigger cfg dir inp
      (stepDashTimer dt (stepDashCooldown cfg dt p)))).jumpCount = p.jumpCount := by
  rw [stepMoveVelocity_jumpCount, stepDashTrigger_jumpCount,
    stepDashTimer_jumpCount, stepDashCooldown_jumpCount]

omit [LinearOrderedField α] in
/-- The jump phase leaves the counter unchanged or sets it to `1` or `2`. -/
lemma stepJump_jumpCount_cases (cfg : Config α) (p : Player α) (inp : InputRec α) :
    (stepJump cfg p inp).1.jumpCount = p.jumpCount ∨
    (stepJump cfg p inp).1.jumpCount = 1 ∨
    (stepJump cfg p inp).1.jumpCount = 2 := by
  unfold stepJump; split_ifs <;> simp

omit [LinearOrderedField α] in
/-- The jump phase never resets the counter to zero. -/
lemma stepJump_jumpCount_zero (cfg : Config α) (p : Player α) (inp : InputRec α)
    (h : (stepJump cfg p inp).1.jumpCount = 0) : p.jumpCount = 0 := by
  unfold stepJump at h
  split_ifs at h <;> dsimp only at h <;> omega

lemma stepKinematics_jumpCount (cfg : Config α) (dt : α) (p : Player α) :
    (stepKinematics cfg dt p).jumpCount = p.jumpCount := by
  unfold stepKinematics stepGravity integrate; split_ifs <;> rfl

lemma clampWorld_jumpCount (cfg : Config α) (p : Player α) :
    (clampWorld cfg p).jumpCount = p.jumpCount := rfl

lemma stepFacing_jumpCount (dir : α × α) (dirAngle : α) (p : Player α) :
    (stepFacing dir dirAngle p).jumpCount = p.jumpCount := by
  unfold stepFacing; split_ifs <;> rfl

/-- The tick's final jump counter is the one the ground-collision phase
produces. -/
lemma stepPlayer_jumpCount (cfg : Config α) (dt : α) (dir : α × α)
    (dirAngle : α) (p : Player α) (inp : InputRec α) :
    (stepPlayer cfg dt dir dirAngle p inp).1.jumpCount
      = (stepGroundCollide cfg
          (stepKinematics cfg dt (stepAbility cfg dt dir p inp).1)).jumpCount := by
  unfold stepPlayer stepResolve
  rw [stepFacing_jumpCount, clampWorld_jumpCount]

/-- C3: the jump-chain counter stays in `{0, 1, 2}` across any tick; it is
`0` after every tick with ground contact (integrated `y` at or below ground
level), and a tick without ground contact can only produce a zero counter
from an already-zero counter (no other transition resets it). -/
theorem C3_jump_chain (cfg : Config α) (dt : α) (dir : α × α) (dirAngle : α)
    (p : Player α) (inp : InputRec α) :
    ((p.jumpCount = 0 ∨ p.jumpCount = 1 ∨ p.jumpCount = 2) →
      ((stepPlayer cfg dt dir dirAngle p inp).1.jumpCount = 0 ∨
       (stepPlayer cfg dt dir dirAngle p inp).1.jumpCount = 1 ∨
       (stepPlayer cfg dt dir dirAngle p inp).1.jumpCount = 2)) ∧
    ((stepKinematics cfg dt (stepAbility cfg dt dir p inp).1).position.y
        ≤ cfg.groundLevel →
      (stepPlayer cfg dt dir dirAngle p inp).1.jumpCount = 0) ∧
    (¬ (stepKinematics cfg dt (stepAbility cfg dt dir p inp).1).position.y
        ≤ cfg.groundLevel →
      (stepPlayer cfg dt dir dirAngle p inp).1.jumpCount = 0 →
      p.jumpCount = 0) := by
  have hqcases :
      (stepKinematics cfg dt (stepAbility cfg dt dir p inp).1).jumpCount
          = p.jumpCount ∨
      (stepKinematics cfg dt (stepAbility cfg dt dir p inp).1).jumpCount = 1 ∨
      (stepKinematics cfg dt (stepAbility cfg dt dir p inp).1).jumpCount = 2 := by
    rw [stepKinematics_jumpCount]
    have h := stepJump_jumpCount_cases cfg
      (stepMoveVelocity cfg dir (stepDashTrigger cfg dir inp
        (stepDashTimer dt (stepDashCooldown cfg dt p)))) inp
    rw [preJump_jumpCount] at h
    exact h
  refine ⟨?_, ?_, ?_⟩
  · intro h012
    rw [stepPlayer_jumpCount]
    unfold stepGroundCollide
    split_ifs
    · exact Or.inl rfl
    · rcases hqcases with h | h | h <;> rw [h] <;> tauto
  · intro hc
    rw [stepPlayer_jumpCount]
    unfold stepGroundCollide
    rw [if_pos hc]
  · intro hc h0
    rw [stepPlayer_jumpCount] at h0
    unfold stepGroundCollide at h0
    rw [if_neg hc] at h0
    rw [stepKinematics_jumpCount] at h0
    have h := stepJump_jumpCount_zero cfg
      (stepMoveVelocity cfg dir (stepDashTrigger cfg dir inp
        (stepDashTimer dt (stepDashCooldown cfg dt p)))) inp h0
    rw [preJump_jumpCount] at h
    exact h

/-- Witness for `C3_jump_chain`: a zero-input contact tick on the spawned
player keeps the counter at `0`, and a no-contact falling tick from height
`10` with counter `1` does not reset it. -/
theorem C3_jump_witness :
    ((stepPlayer (hostConfig ℚ) (1/20) (0, 0) 0
        (spawnPlayer ℚ "h" "Host" 0) (zeroInput ℚ)).1.jumpCount = 0 ∨
     (stepPlayer (hostConfig ℚ) (1/20) (0, 0) 0
        (spawnPlayer ℚ "h" "Host" 0) (zeroInput ℚ)).1.jumpCount = 1 ∨
     (stepPlayer (hostConfig ℚ) (1/20) (0, 0) 0
        (spawnPlayer ℚ "h" "Host" 0) (zeroInput ℚ)).1.jumpCount = 2) ∧
    (stepPlayer (hostConfig ℚ) (1/20) (0, 0) 0
        (spawnPlayer ℚ "h" "Host" 0) (zeroInput ℚ)).1.jumpCount = 0 ∧
    ((stepPlayer (hostConfig ℚ) (1/20) (0, 0) 0
        { spawnPlayer ℚ "h" "Host" 0 with
            position := ⟨0, 10, 0⟩, isGrounded := false, jumpCount := 1 }
        (zeroInput ℚ)).1.jumpCount = 0 →
      ({ spawnPlayer ℚ "h" "Host" 0 with
            position := ⟨(0 : ℚ), 10, 0⟩, isGrounded := false, jumpCount := 1 }
          : Player ℚ).jumpCount = 0) := by
  refine ⟨?_, ?_, ?_⟩
  · exact (C3_jump_chain (hostConfig ℚ) (1/20) (0, 0) 0
      (spawnPlayer ℚ "h" "Host" 0) (zeroInput ℚ)).1 (by decide)
  · exact (C3_jump_chain (hostConfig ℚ) (1/20) (0, 0) 0
      (spawnPlayer ℚ "h" "Host" 0) (zeroInput ℚ)).2.1
      (by norm_num [stepKinematics, stepAbility, stepJump, stepMoveVelocity,
        stepDashTrigger, stepDashTimer, stepDashCooldown, dashTriggered,
        stepGravity, integrate, spawnPlayer, zeroInput, hostConfig])
  · exact (C3_jump_chain (hostConfig ℚ) (1/20) (0, 0) 0
      { spawnPlayer ℚ "h" "Host" 0 with
          position := ⟨0, 10, 0⟩, isGrounded := false, jumpCount := 1 }
      (zeroInput ℚ)).2.2
      (by norm_num [stepKinematics, stepAbility, stepJump, stepMoveVelocity,
        stepDashTrigger, stepDashTimer, stepDashCooldown, dashTriggered,
        stepGravity, integrate, spawnPlayer, zeroInput, hostConfig])

/-! ### C9: rest under zero input -/

/-- With all four directional flags false the rotated movement direction is
zero, whatever the camera yaw: this ties `tickZero` to the real-valued
direction pipeline. -/
lemma movementDir_noflags (inp : InputRec ℝ) (hf : inp.forward = false)
    (hb : inp.backward = false) (hl : inp.left = false)
    (hr : inp.right = false) : movementDir inp = (0, 0) := by
  have hm : rawMove inp = (0, 0) := by simp [rawMove, hf, hb, hl, hr]
  have hlen : rawLen inp = 0 := by simp [rawLen, hm]
  simp [movementDir, normedMove, hlen, hm]

/-- A zero direction never updates the facing. -/
lemma stepFacing_zero_dir (a : α) (p : Player α) :
    stepFacing ((0 : α), (0 : α)) a p = p := by
  simp [stepFacing]

/-- On the all-false input record the real-valued host tick coincides with
`tickZero`. -/
lemma hostTick_zeroInput (cfg : Config ℝ) (dt : ℝ) (p : Player ℝ) :
    hostTick cfg dt p (zeroInput ℝ) = tickZero cfg dt (p, zeroInput ℝ) := by
  unfold hostTick tickZero
  rw [movementDir_noflags (zeroInput ℝ) rfl rfl rfl rfl]
  unfold stepPlayer
  rw [stepFacing_zero_dir, stepFacing_zero_dir]

lemma stepDashCooldown_position (cfg : Config α) (dt : α) (p : Player α) :
    (stepDashCooldown cfg dt p).position = p.position := by
  unfold stepDashCooldown; split_ifs <;> rfl

lemma stepDashCooldown_velocity (cfg : Config α) (dt : α) (p : Player α) :
    (stepDashCooldown cfg dt p).velocity = p.velocity := by
  unfold stepDashCooldown; split_ifs <;> rfl

lemma stepDashCooldown_isGrounded (cfg : Config α) (dt : α) (p : Player α) :
    (stepDashCooldown cfg dt p).isGrounded = p.isGrounded := by
  unfold stepDashCooldown; split_ifs <;> rfl

lemma stepDashCooldown_isDashing (cfg : Config α) (dt : α) (p : Player α) :
    (stepDashCooldown cfg dt p).isDashing = p.isDashing := by
  unfold stepDashCooldown; split_ifs <;> rfl

lemma stepDashTimer_of_notDashing (dt : α) (p : Player α)
    (h : p.isDashing = false) : stepDashTimer dt p = p := by
  simp [stepDashTimer, h]

lemma stepDashTrigger_of_noDash (cfg : Config α) (dir : α × α)
    (inp : InputRec α) (p : Player α) (h : inp.dash = false) :
    stepDashTrigger cfg dir inp p = p := by
  simp [stepDashTrigger, dashTriggered, h]

lemma stepMoveVelocity_of_notDashing (cfg : Config α) (dir : α × α)
    (p : Player α) (h : p.isDashing = false) :
    stepMoveVelocity cfg dir p
      = { p with velocity := { p.velocity with
            x := dir.1 * cfg.moveSpeed, z := dir.2 * cfg.moveSpeed } } := by
  simp [stepMoveVelocity, h]

omit [LinearOrderedField α] in
lemma stepJump_of_noJump (cfg : Config α) (p : Player α) (inp : InputRec α)
    (h : inp.jump = false) :
    stepJump cfg p inp = (p, { inp with jumpPressed := false }) := by
  simp [stepJump, h]

lemma stepGravity_of_grounded (cfg : Config α) (dt : α) (p : Player α)
    (h : p.isGrounded = true) : stepGravity cfg dt p = p := by
  simp [stepGravity, h]

lemma integrate_velocity (dt : α) (p : Player α) :
    (integrate dt p).velocity = p.velocity := rfl

lemma stepKinematics_isGrounded (cfg : Config α) (dt : α) (p : Player α) :
    (stepKinematics cfg dt p).isGrounded = p.isGrounded := by
  unfold stepKinematics stepGravity integrate; split_ifs <;> rfl

lemma stepKinematics_isDashing (cfg : Config α) (dt : α) (p : Player α) :
    (stepKinematics cfg dt p).isDashing = p.isDashing := by
  unfold stepKinematics stepGravity integrate; split_ifs <;> rfl

/-- One zero-input tick on a grounded, non-dashing, vertically-at-rest
player inside the world bounds fixes the position and preserves those
properties. -/
lemma tickZero_fixed (cfg : Config α) (dt : α) (p : Player α)
    (hg : p.isGrounded = true) (hd : p.isDashing = false)
    (hvy : p.velocity.y = 0) (hy : cfg.groundLevel ≤ p.position.y)
    (hx : |p.position.x| ≤ cfg.worldSize / 2)
    (hz : |p.position.z| ≤ cfg.worldSize / 2) :
    (tickZero cfg dt (p, zeroInput α)).1.position = p.position ∧
    (tickZero cfg dt (p, zeroInput α)).1.isGrounded = true ∧
    (tickZero cfg dt (p, zeroInput α)).1.isDashing = false ∧
    (tickZero cfg dt (p, zeroInput α)).1.velocity.y = 0 ∧
    (tickZero cfg dt (p, zeroInput α)).2 = zeroInput α := by
  have hset : (stepDashCooldown cfg dt p).velocity = p.velocity :=
    stepDashCooldown_velocity cfg dt p
  have h4 : stepAbility cfg dt ((0 : α), (0 : α)) p (zeroInput α)
      = ({ stepDashCooldown cfg dt p with
            velocity := { (stepDashCooldown cfg dt p).velocity with
              x := 0 * cfg.moveSpeed, z := 0 * cfg.moveSpeed } },
         { zeroInput α with jumpPressed := false }) := by
    unfold stepAbility
    rw [stepDashTimer_of_notDashing dt _ (by rw [stepDashCooldown_isDashing]; exact hd),
      stepDashTrigger_of_noDash cfg _ _ _ rfl,
      stepMoveVelocity_of_notDashing cfg _ _
        (by rw [stepDashCooldown_isDashing]; exact hd),
      stepJump_of_noJump]
    rfl
  have hAg : ({ stepDashCooldown cfg dt p with
      velocity := { (stepDashCooldown cfg dt p).velocity with
        x := 0 * cfg.moveSpeed, z := 0 * cfg.moveSpeed } } : Player α).isGrounded
      = true := by
    dsimp only
    rw [stepDashCooldown_isGrounded]
    exact hg
  have hq1 : (stepKinematics cfg dt (stepAbility cfg dt ((0 : α), (0 : α)) p
      (zeroInput α)).1).position = p.position := by
    rw [h4]
    unfold stepKinematics
    rw [stepGravity_of_grounded cfg dt _ hAg]
    unfold integrate
    dsimp only
    rw [stepDashCooldown_position, hset, hvy]
    ext <;> dsimp only <;> simp
  have hq2 : (stepKinematics cfg dt (stepAbility cfg dt ((0 : α), (0 : α)) p
      (zeroInput α)).1).isGrounded = true := by
    rw [h4, stepKinematics_isGrounded]
    exact hAg
  have hq3 : (stepKinematics cfg dt (stepAbility cfg dt ((0 : α), (0 : α)) p
      (zeroInput α)).1).isDashing = false := by
    rw [h4, stepKinematics_isDashing]
    dsimp only
    rw [stepDashCooldown_isDashing]
    exact hd
  have hq4 : (stepKinematics cfg dt (stepAbility cfg dt ((0 : α), (0 : α)) p
      (zeroInput α)).1).velocity.y = 0 := by
    rw [h4]
    unfold stepKinematics
    rw [stepGravity_of_grounded cfg dt _ hAg, integrate_velocity]
    dsimp only
    rw [hset]
    exact hvy
  have hxx : p.position.x ≤ cfg.worldSize / 2 := (abs_le.mp hx).2
  have hxn : -(cfg.worldSize / 2) ≤ p.position.x := (abs_le.mp hx).1
  have hzz : p.position.z ≤ cfg.worldSize / 2 := (abs_le.mp hz).2
  have hzn : -(cfg.worldSize / 2) ≤ p.position.z := (abs_le.mp hz).1
  have hres : ∀ q : Player α, q.position = p.position → q.isGrounded = true →
      q.isDashing = false → q.velocity.y = 0 →
      (stepResolve cfg q).position = p.position ∧
      (stepResolve cfg q).isGrounded = true ∧
      (stepResolve cfg q).isDashing = false ∧
      (stepResolve cfg q).velocity.y = 0 := by
    intro q hqpos hqg hqd hqvy
    unfold stepResolve stepGroundCollide
    split_ifs with hc
    · rw [hqpos] at hc
      have hyg : p.position.y = cfg.groundLevel := le_antisymm hc hy
      unfold clampWorld
      refine ⟨?_, rfl, hqd, rfl⟩
      dsimp only
      rw [hqpos]
      ext
      · dsimp only
        rw [min_eq_right hxx, max_eq_right hxn]
      · exact hyg.symm
      · dsimp only
        rw [min_eq_right hzz, max_eq_right hzn]
    · unfold clampWorld
      refine ⟨?_, by dsimp only; rw [hqg], by dsimp only; rw [hqd],
        by dsimp only; rw [hqvy]⟩
      dsimp only
      rw [hqpos]
      ext
      · dsimp only
        rw [min_eq_right hxx, max_eq_right hxn]
      · rfl
      · dsimp only
        rw [min_eq_right hzz, max_eq_right hzn]
  have hmain := hres (stepKinematics cfg dt (stepAbility cfg dt
    ((0 : α), (0 : α)) p (zeroInput α)).1) hq1 hq2 hq3 hq4
  have hpair : tickZero cfg dt (p, zeroInput α)
      = (stepFacing ((0 : α), (0 : α)) 0 (stepResolve cfg (stepKinematics cfg dt
          (stepAbility cfg dt ((0 : α), (0 : α)) p (zeroInput α)).1)),
         (stepAbility cfg dt ((0 : α), (0 : α)) p (zeroInput α)).2) := rfl
  rw [hpair, stepFacing_zero_dir]
  exact ⟨hmain.1, hmain.2.1, hmain.2.2.1, hmain.2.2.2, by rw [h4]; rfl⟩


/-- C9 as stated is false: a grounded entity that is mid-dash (a reachable
state: dashing does not clear the grounded flag) keeps moving under the
all-false input record.  One zero-input tick of `dt = 1/20` moves this
grounded player from `x = 0` to `x = 25 × 1/20 = 5/4`. -/
theorem C9_counterexample :
    ({ spawnPlayer ℚ "h" "Host" 0 with
        isDashing := true, dashTimer := 1/4, dashCooldownTimer := 2,
        dashStacks := 2, dashDirection := ⟨1, 0⟩ } : Player ℚ).isGrounded
        = true ∧
    ({ spawnPlayer ℚ "h" "Host" 0 with
        isDashing := true, dashTimer := 1/4, dashCooldownTimer := 2,
        dashStacks := 2, dashDirection := ⟨1, 0⟩ } : Player ℚ).position.x = 0 ∧
    (tickZero (hostConfig ℚ) (1/20)
      ({ spawnPlayer ℚ "h" "Host" 0 with
          isDashing := true, dashTimer := 1/4, dashCooldownTimer := 2,
          dashStacks := 2, dashDirection := ⟨1, 0⟩ }, zeroInput ℚ)).1.position.x
      = 5/4 := by
  refine ⟨rfl, rfl, ?_⟩
  norm_num [tickZero, stepPlayer, stepAbility, stepResolve, stepKinematics,
    stepJump, stepMoveVelocity, stepDashTrigger, stepDashTimer,
    stepDashCooldown, dashTriggered, stepGravity, integrate,
    stepGroundCollide, clampWorld, stepFacing, spawnPlayer, zeroInput,
    hostConfig, min_def, max_def]

/-- C9 amended: for every grounded entity that is not mid-dash, has zero
vertical velocity, and sits at or above ground level within the world
bounds, running any number of zero-input integrator ticks leaves the
position exactly unchanged. -/
theorem C9_rest_amended (cfg : Config α) (dt : α) (p : Player α) (N : ℕ)
    (hg : p.isGrounded = true) (hd : p.isDashing = false)
    (hvy : p.velocity.y = 0) (hy : cfg.groundLevel ≤ p.position.y)
    (hx : |p.position.x| ≤ cfg.worldSize / 2)
    (hz : |p.position.z| ≤ cfg.worldSize / 2) :
    ((tickZero cfg dt)^[N] (p, zeroInput α)).1.position = p.position := by
  have key : ∀ (n : ℕ) (q : Player α), q.isGrounded = true →
      q.isDashing = false → q.velocity.y = 0 →
      cfg.groundLevel ≤ q.position.y →
      |q.position.x| ≤ cfg.worldSize / 2 →
      |q.position.z| ≤ cfg.worldSize / 2 →
      ((tickZero cfg dt)^[n] (q, zeroInput α)).1.position = q.position ∧
      ((tickZero cfg dt)^[n] (q, zeroInput α)).1.isGrounded = true ∧
      ((tickZero cfg dt)^[n] (q, zeroInput α)).1.isDashing = false ∧
      ((tickZero cfg dt)^[n] (q, zeroInput α)).1.velocity.y = 0 ∧
      ((tickZero cfg dt)^[n] (q, zeroInput α)).2 = zeroInput α := by
    intro n
    induction n with
    | zero =>
      intro q h1 h2 h3 _ _ _
      exact ⟨rfl, h1, h2, h3, rfl⟩
    | succ m ih =>
      intro q h1 h2 h3 h4 h5 h6
      obtain ⟨t1, t2, t3, t4, t5⟩ := tickZero_fixed cfg dt q h1 h2 h3 h4 h5 h6
      rw [Function.iterate_succ_apply]
      have hpair2 : tickZero cfg dt (q, zeroInput α)
          = ((tickZero cfg dt (q, zeroInput α)).1, zeroInput α) := by
        conv_lhs => rw [← Prod.mk.eta (p := tickZero cfg dt (q, zeroInput α))]
        rw [t5]
      rw [hpair2]
      have hiter := ih (tickZero cfg dt (q, zeroInput α)).1 t2 t3 t4
        (by rw [t1]; exact h4) (by rw [t1]; exact h5) (by rw [t1]; exact h6)
      refine ⟨?_, hiter.2.1, hiter.2.2.1, hiter.2.2.2.1, hiter.2.2.2.2⟩
      rw [hiter.1, t1]
  exact (key N p hg hd hvy hy hx hz).1

/-- Witness for `C9_rest_amended`: three zero-input ticks on the spawned
player leave it at the spawn position. -/
theorem C9_rest_witness :
    ((tickZero (hostConfig ℚ) (1/20))^[3]
        (spawnPlayer ℚ "h" "Host" 0, zeroInput ℚ)).1.position
      = (spawnPlayer ℚ "h" "Host" 0).position :=
  C9_rest_amended (hostConfig ℚ) (1/20) (spawnPlayer ℚ "h" "Host" 0) 3
    rfl rfl rfl (by norm_num [spawnPlayer, hostConfig])
    (by norm_num [spawnPlayer, hostConfig])
    (by norm_num [spawnPlayer, hostConfig])


/-! ### C8: rotation smoothing -/

/-- C8 as stated is false at the half-turn boundary: for
`current = π/2` and `target = -π/2` the raw difference is exactly `-π`;
neither wrap branch fires, so the computed difference stays `-π`, which is
not in the half-open interval `(-π, π]` the claim names. -/
theorem C8_counterexample :
    wrapAngle (Real.pi / 2) (-(Real.pi / 2)) = -Real.pi ∧
    wrapAngle (Real.pi / 2) (-(Real.pi / 2)) ∉ Set.Ioc (-Real.pi) Real.pi := by
  have hpi := Real.pi_pos
  have hd : -(Real.pi / 2) - Real.pi / 2 = -Real.pi := by ring
  have hh : wrapHigh (-Real.pi) = -Real.pi := by
    unfold wrapHigh
    rw [if_neg (not_lt.mpr (by linarith))]
  have hl : wrapLow (-Real.pi) = -Real.pi := by
    unfold wrapLow
    rw [if_neg (lt_irrefl _)]
  have hval : wrapAngle (Real.pi / 2) (-(Real.pi / 2)) = -Real.pi := by
    unfold wrapAngle
    rw [hd, hh, hl]
  refine ⟨hval, ?_⟩
  rw [hval, Set.mem_Ioc]
  intro h
  exact lt_irrefl _ h.1

/-- C8 amended: the wrap brings the angular difference into the closed
interval `[-π, π]` (with `-π` rather than `+π` produced at exact half-turn
ties) whenever `|target - current| ≤ 3π`, so the smoothing never rotates
the long way; in particular for `current = 3` rad and `target = -3` rad the
computed difference is `2π - 6 ≈ 0.283`: positive and below `3/10`, never
`≈ -6` the long way around. -/
theorem C8_shortest_path :
    (∀ current target : ℝ, |target - current| ≤ 3 * Real.pi →
      wrapAngle current target ∈ Set.Icc (-Real.pi) Real.pi) ∧
    wrapAngle 3 (-3) = 2 * Real.pi - 6 ∧
    0 < wrapAngle 3 (-3) ∧ wrapAngle 3 (-3) < 3/10 := by
  have hpi3 : (3 : ℝ) < Real.pi := by linarith [Real.pi_gt_d6]
  have hpi4 : Real.pi < 3.15 := Real.pi_lt_d2
  have hh : wrapHigh ((-3 : ℝ) - 3) = (-3 : ℝ) - 3 := by
    unfold wrapHigh
    rw [if_neg (not_lt.mpr (by linarith))]
  have hl : wrapLow ((-3 : ℝ) - 3) = (-3 : ℝ) - 3 + 2 * Real.pi := by
    unfold wrapLow
    rw [if_pos (by linarith)]
  have hval : wrapAngle 3 (-3) = 2 * Real.pi - 6 := by
    unfold wrapAngle
    rw [hh, hl]
    ring
  refine ⟨?_, hval, by rw [hval]; linarith, by rw [hval]; linarith⟩
  intro c t h
  have habs := abs_le.mp h
  unfold wrapAngle wrapHigh wrapLow
  rw [Set.mem_Icc]
  split_ifs with h1 h2 h3 <;> constructor <;> linarith [Real.pi_pos]

/-- Witness for `C8_shortest_path` at `current = 3`, `target = -3`. -/
theorem C8_wrap_witness :
    |(-3 : ℝ) - 3| ≤ 3 * Real.pi ∧
    wrapAngle 3 (-3) ∈ Set.Icc (-Real.pi) Real.pi :=
  ⟨by rw [abs_le]; constructor <;> linarith [Real.pi_gt_d6],
   C8_shortest_path.1 3 (-3)
     (by rw [abs_le]; constructor <;> linarith [Real.pi_gt_d6])⟩


/-! ### C7: diagonal movement is normalized -/

/-- The input record with forward and left pressed and camera yaw `0`. -/
noncomputable def inputDiag : InputRec ℝ :=
  { zeroInput ℝ with forward := true, left := true }

lemma rawMove_diag : rawMove inputDiag = (-1, -1) := by
  norm_num [rawMove, inputDiag, zeroInput]

lemma rawLen_diag : rawLen inputDiag = Real.sqrt 2 := by
  unfold rawLen
  rw [rawMove_diag]
  norm_num

lemma movementDir_diag :
    movementDir inputDiag = (-1 / Real.sqrt 2, -1 / Real.sqrt 2) := by
  have hd2 : (0:ℝ) < Real.sqrt 2 := Real.sqrt_pos.mpr (by norm_num)
  unfold movementDir normedMove
  rw [rawLen_diag, rawMove_diag, if_pos hd2]
  norm_num [inputDiag, zeroInput]

/-- One tick on the freshly spawned player, for any movement direction
whose scaled displacement stays inside the world bounds: the position
becomes exactly `spawn + dir × moveSpeed × dt` in the XZ plane, staying on
the ground. -/
lemma stepPlayer_spawn_position (dt : α) (d : α × α) (a : α)
    (pid nm : String) (col : ℕ) (inp : InputRec α)
    (hdash : inp.dash = false) (hjump : inp.jump = false)
    (hb1 : -((hostConfig α).worldSize / 2) ≤ d.1 * (hostConfig α).moveSpeed * dt)
    (hb2 : d.1 * (hostConfig α).moveSpeed * dt ≤ (hostConfig α).worldSize / 2)
    (hb3 : -((hostConfig α).worldSize / 2) ≤ d.2 * (hostConfig α).moveSpeed * dt)
    (hb4 : d.2 * (hostConfig α).moveSpeed * dt ≤ (hostConfig α).worldSize / 2) :
    (stepPlayer (hostConfig α) dt d a (spawnPlayer α pid nm col) inp).1.position
      = ⟨d.1 * (hostConfig α).moveSpeed * dt, (hostConfig α).groundLevel,
         d.2 * (hostConfig α).moveSpeed * dt⟩ := by
  have hc0 : stepDashCooldown (hostConfig α) dt (spawnPlayer α pid nm col)
      = spawnPlayer α pid nm col := by
    simp [stepDashCooldown, spawnPlayer]
  have hstep : (stepPlayer (hostConfig α) dt d a (spawnPlayer α pid nm col)
      inp).1.position
      = (stepResolve (hostConfig α) (stepKinematics (hostConfig α) dt
          (stepAbility (hostConfig α) dt d (spawnPlayer α pid nm col)
            inp).1)).position := by
    unfold stepPlayer
    exact stepFacing_position _ _ _
  rw [hstep]
  have hab : (stepAbility (hostConfig α) dt d (spawnPlayer α pid nm col) inp).1
      = { spawnPlayer α pid nm col with
            velocity := ⟨d.1 * (hostConfig α).moveSpeed, 0,
              d.2 * (hostConfig α).moveSpeed⟩ } := by
    unfold stepAbility
    rw [hc0, stepDashTimer_of_notDashing dt _ rfl,
      stepDashTrigger_of_noDash _ _ _ _ hdash,
      stepMoveVelocity_of_notDashing _ _ _ rfl,
      stepJump_of_noJump _ _ _ hjump]
    rfl
  rw [hab]
  have hkin : stepKinematics (hostConfig α) dt
      ({ spawnPlayer α pid nm col with
          velocity := ⟨d.1 * (hostConfig α).moveSpeed, 0,
            d.2 * (hostConfig α).moveSpeed⟩ } : Player α)
      = { spawnPlayer α pid nm col with
            velocity := ⟨d.1 * (hostConfig α).moveSpeed, 0,
              d.2 * (hostConfig α).moveSpeed⟩,
            position := ⟨0 + d.1 * (hostConfig α).moveSpeed * dt,
              (hostConfig α).groundLevel + 0 * dt,
              0 + d.2 * (hostConfig α).moveSpeed * dt⟩ } := by
    unfold stepKinematics
    rw [stepGravity_of_grounded _ _ _ rfl]
    rfl
  rw [hkin]
  unfold stepResolve stepGroundCollide
  split_ifs with hcol
  · unfold clampWorld
    dsimp only
    ext
    · dsimp only
      rw [zero_add, min_eq_right hb2, max_eq_right hb1]
    · rfl
    · dsimp only
      rw [zero_add, min_eq_right hb4, max_eq_right hb3]
  · exfalso
    apply hcol
    dsimp only
    simp

/-- C7: with forward and left both pressed, yaw `0`, the host config
(`moveSpeed = 8`) and one integrator tick of `dt = 1/20` s, the freshly
spawned grounded player is displaced in the XZ plane by a magnitude of
exactly `moveSpeed × dt = 2/5 = 0.4` — equal to single-direction movement,
not `0.566`: the raw diagonal vector is normalized before scaling. -/
theorem C7_diagonal_normalized :
    Real.sqrt
      (((hostTick (hostConfig ℝ) (1/20) (spawnPlayer ℝ "h" "Host" 0)
            inputDiag).1.position.x
          - (spawnPlayer ℝ "h" "Host" 0).position.x) ^ 2
        + ((hostTick (hostConfig ℝ) (1/20) (spawnPlayer ℝ "h" "Host" 0)
            inputDiag).1.position.z
          - (spawnPlayer ℝ "h" "Host" 0).position.z) ^ 2)
      = (hostConfig ℝ).moveSpeed * (1/20) ∧
    (hostConfig ℝ).moveSpeed * (1/20) = 2/5 := by
  have hd2 : (0:ℝ) < Real.sqrt 2 := Real.sqrt_pos.mpr (by norm_num)
  have hs2 : Real.sqrt 2 * Real.sqrt 2 = 2 := Real.mul_self_sqrt (by norm_num)
  have h12 : (1:ℝ) < Real.sqrt 2 := by nlinarith [hs2, hd2]
  have hinv : 1 / Real.sqrt 2 ≤ 1 := by rw [div_le_one hd2]; linarith
  have hinv0 : (0:ℝ) < 1 / Real.sqrt 2 := by positivity
  have hms : (hostConfig ℝ).moveSpeed = 8 := rfl
  have he : -1 / Real.sqrt 2 * (hostConfig ℝ).moveSpeed * (1/20)
      = -(2/5) * (1 / Real.sqrt 2) := by
    rw [hms]
    ring
  have hb1 : -((hostConfig ℝ).worldSize / 2)
      ≤ -1 / Real.sqrt 2 * (hostConfig ℝ).moveSpeed * (1/20) := by
    rw [he, show (hostConfig ℝ).worldSize = 50 from rfl]
    linarith [hinv, hinv0]
  have hb2 : -1 / Real.sqrt 2 * (hostConfig ℝ).moveSpeed * (1/20)
      ≤ (hostConfig ℝ).worldSize / 2 := by
    rw [he, show (hostConfig ℝ).worldSize = 50 from rfl]
    linarith [hinv, hinv0]
  have hpos := stepPlayer_spawn_position (1/20)
    (-1 / Real.sqrt 2, -1 / Real.sqrt 2) (movementAngle inputDiag)
    "h" "Host" 0 inputDiag rfl rfl hb1 hb2 hb1 hb2
  have htick : (hostTick (hostConfig ℝ) (1/20) (spawnPlayer ℝ "h" "Host" 0)
      inputDiag).1.position
      = ⟨-1 / Real.sqrt 2 * (hostConfig ℝ).moveSpeed * (1/20),
         (hostConfig ℝ).groundLevel,
         -1 / Real.sqrt 2 * (hostConfig ℝ).moveSpeed * (1/20)⟩ := by
    unfold hostTick
    rw [movementDir_diag]
    exact hpos
  constructor
  · rw [htick, hms]
    dsimp only
    rw [show (spawnPlayer ℝ "h" "Host" 0).position.x = 0 from rfl,
      show (spawnPlayer ℝ "h" "Host" 0).position.z = 0 from rfl]
    have hone : (-1 / Real.sqrt 2 * 8 * (1/20) - 0) ^ 2
        = 1 / (Real.sqrt 2 * Real.sqrt 2) * (4/25) := by
      ring
    rw [hone, hs2]
    rw [show (1:ℝ) / 2 * (4/25) + 1 / 2 * (4/25) = (2/5) ^ 2 by norm_num]
    rw [Real.sqrt_sq (by norm_num : (0:ℝ) ≤ 2/5)]
    norm_num
  · norm_num [hostConfig]

end MW
